import Mathlib

/-!
Shallow embedding of the slot state engine endpoints of the venue booking
application: the hold route (`app/api/slots/hold/route.ts`), the booking
route file (`app/api/bookings/route.ts`, which contains the book handler,
the schedule-generation handler and the reserve handler), the unbook
route (`app/api/slots/unbook/route.ts`) and the read-side slot status
computation of `components/WeeklySlotsGrid.old.tsx`.

Documents of the Firestore collections `slots`, `bookings`, `users` and
`venues` are modelled as association lists keyed by document id.  A
Firestore transaction is modelled as a pure function from the database
value to either an HTTP error or an updated database: Firestore
serializes conflicting transactions on one document, so a set of
concurrently issued transactions on one slot commits in some serial
order, and concurrency claims are stated over such serialized runs.
Timestamps are milliseconds as `Nat`; `FieldValue.serverTimestamp()` is
the transaction time `now`.  Optional / possibly-undefined JavaScript
fields are `Option` fields.
-/

namespace Tournament

/-- An HTTP error response: status code and message, as produced by the
route handlers via `NextResponse.json({error}, {status})`. -/
structure Http where
  status : Nat
  message : String
deriving DecidableEq

/-- A document of the `slots` collection (old one-document-per-slot
layout).  Every field may be absent. -/
structure SlotDoc where
  status : Option String
  heldBy : Option String
  holdExpiresAt : Option Nat
  bookingId : Option String
  groundId : Option String
  date : Option String
  startTime : Option String
  endTime : Option String
  updatedAt : Option Nat
deriving DecidableEq

/-- A document of the `bookings` collection. -/
structure BookingDoc where
  venueId : Option String
  userId : Option String
  slotId : Option String
  timeSlot : Option String
  status : Option String
  bookingType : Option String
  customerName : Option String
  customerPhone : Option String
  notes : Option String
  amount : Option Nat
  bookingExpiresAt : Option Nat
  date : Option String
  startTime : Option String
  createdAt : Option Nat
deriving DecidableEq

/-- A document of the `users` collection (only the `role` field is read
by the routes). -/
structure UserDoc where
  role : Option String
deriving DecidableEq

/-- A document of the `venues` collection (fields read or written by the
routes: `pricePerHour`, `managedBy`, `startTime`, `endTime`). -/
structure VenueDoc where
  pricePerHour : Option Nat
  managedBy : Option String
  startTime : Option String
  endTime : Option String
deriving DecidableEq

/-- The Firestore database as seen by the routes.  `nextId` feeds the
fresh document-id generator of `db.collection("bookings").doc()`. -/
structure DB where
  slots : List (String × SlotDoc)
  bookings : List (String × BookingDoc)
  users : List (String × UserDoc)
  venues : List (String × VenueDoc)
  nextId : Nat
deriving DecidableEq

/-- ASCII upper-casing of one character, as JavaScript
`toUpperCase()` acts on the status strings of this code base. -/
def upChar (c : Char) : Char :=
  if 97 ≤ c.toNat ∧ c.toNat ≤ 122 then Char.ofNat (c.toNat - 32) else c

/-- JavaScript `s.toUpperCase()` on ASCII strings. -/
def upStr (s : String) : String :=
  String.mk (s.data.map upChar)

/-- ASCII lower-casing of one character. -/
def lowChar (c : Char) : Char :=
  if 65 ≤ c.toNat ∧ c.toNat ≤ 90 then Char.ofNat (c.toNat + 32) else c

/-- JavaScript `s.toLowerCase()` on ASCII strings. -/
def lowStr (s : String) : String :=
  String.mk (s.data.map lowChar)

/-- Document lookup by id (`collection.doc(id).get()`): first entry with
the given key, `none` when the document does not exist. -/
def findVal {α : Type} : List (String × α) → String → Option α
  | [], _ => none
  | p :: ps, k => if p.1 = k then some p.2 else findVal ps k

/-- `tx.update(slotRef, fields)`: apply a field update to the slot
document with the given id, leaving all other documents unchanged. -/
def updateSlot (db : DB) (slotId : String) (f : SlotDoc → SlotDoc) : DB :=
  { db with slots := db.slots.map (fun p => if p.1 = slotId then (p.1, f p.2) else p) }

/-- Fresh booking-document id from the id counter
(`db.collection("bookings").doc()`). -/
def genId (n : Nat) : String :=
  "bk" ++ toString n

/-- `tx.set(bookingRef, data)` on a fresh booking ref: record the new
booking document and advance the id generator. -/
def addBooking (db : DB) (bid : String) (b : BookingDoc) : DB :=
  { db with bookings := (bid, b) :: db.bookings, nextId := db.nextId + 1 }

/-- JavaScript string truthiness of an optional string field
(`x || null`): an absent or empty string is `none`. -/
def jsStr (o : Option String) : Option String :=
  match o with
  | some s => if s = "" then none else some s
  | none => none

/-- JavaScript `x || d` for an optional string field with a string
default: an absent or empty value falls back to the default. -/
def jsOr (o : Option String) (d : String) : String :=
  match o with
  | some s => if s = "" then d else s
  | none => d

/-- JavaScript template-string rendering of a possibly-undefined string
field (an absent field renders as the text `undefined`). -/
def strOrUndef (o : Option String) : String :=
  o.getD "undefined"

/-- The hold-route check
`expires && expires.toMillis && expires.toMillis() > now`: the slot
carries a hold-expiry timestamp strictly in the future. -/
def holdActiveAt (s : SlotDoc) (now : Nat) : Bool :=
  match s.holdExpiresAt with
  | some e => decide (now < e)
  | none => false

/-- The commit body of the hold route (`app/api/slots/hold/route.ts`,
lines 51-74): create the pending booking document and mark the slot
`HELD` with `heldBy`, `holdExpiresAt = now + minutes*60*1000` and the
fresh booking id. -/
def holdCommit (db : DB) (now : Nat) (slotId venueId uid : String) (minutes : Nat) :
    DB × String :=
  let holdExp := now + minutes * 60 * 1000
  let bid := genId db.nextId
  let booking : BookingDoc :=
    { venueId := some venueId, userId := some uid, slotId := some slotId,
      timeSlot := none, status := some "PENDING_PAYMENT", bookingType := none,
      customerName := none, customerPhone := none, notes := none, amount := none,
      bookingExpiresAt := some holdExp, date := none, startTime := none,
      createdAt := some now }
  let db1 := addBooking db bid booking
  let db2 := updateSlot db1 slotId (fun s =>
    { s with status := some "HELD", heldBy := some uid,
             holdExpiresAt := some holdExp, bookingId := some bid,
             updatedAt := some now })
  (db2, bid)

/-- The POST handler of `app/api/slots/hold/route.ts` after
authentication: validate inputs, then run the transaction that checks
the stored status (uppercased; a `HELD` slot whose `holdExpiresAt` is
not in the future is allowed through) and commits the hold. -/
def holdPOST (db : DB) (now : Nat) (slotId venueId uid : String)
    (holdDurationMinutes : Option Nat) : Except Http (DB × String) :=
  if slotId = "" ∨ venueId = "" then
    Except.error ⟨400, "Missing required fields: slotId, venueId"⟩
  else
    match findVal db.slots slotId with
    | none => Except.error ⟨404, "Slot not found"⟩
    | some s =>
      let status := upStr (s.status.getD "")
      if status ≠ "" ∧ status ≠ "AVAILABLE" then
        if status ≠ "HELD" then
          Except.error ⟨409, "Slot not available"⟩
        else if holdActiveAt s now then
          Except.error ⟨409, "Slot currently held"⟩
        else
          Except.ok (holdCommit db now slotId venueId uid (holdDurationMinutes.getD 5))
      else
        Except.ok (holdCommit db now slotId venueId uid (holdDurationMinutes.getD 5))

/-- The commit body of the book handler of `app/api/bookings/route.ts`
(lines 47-78): price the booking from the venue, create the pending
booking document and mark the slot `booked` with the fresh booking
id. -/
def bookCommit (db : DB) (now : Nat) (venueId slotId uid : String) (s : SlotDoc) :
    DB × String :=
  let pricePerHour :=
    match findVal db.venues venueId with
    | some v => v.pricePerHour.getD 0
    | none => 0
  let timeSlot :=
    match jsStr s.date, jsStr s.startTime with
    | some d, some st => some (d ++ " " ++ st ++ " - " ++ s.endTime.getD "")
    | _, _ => none
  let bid := genId db.nextId
  let booking : BookingDoc :=
    { venueId := some venueId, userId := some uid, slotId := some slotId,
      timeSlot := timeSlot, status := some "pending", bookingType := none,
      customerName := none, customerPhone := none, notes := none,
      amount := some pricePerHour, bookingExpiresAt := none,
      date := none, startTime := none, createdAt := some now }
  let db1 := addBooking db bid booking
  let db2 := updateSlot db1 slotId (fun sl =>
    { sl with status := some "booked", bookingId := some bid, updatedAt := some now })
  (db2, bid)

/-- The POST handler of `app/api/bookings/route.ts` (book) after
authentication: validate inputs, then run the transaction that requires
the stored status (lowercased) to be empty or `available`, creates a
pending booking priced from the venue, and marks the slot `booked`. -/
def bookPOST (db : DB) (now : Nat) (venueId slotId uid : String) :
    Except Http (DB × String) :=
  if venueId = "" ∨ slotId = "" then
    Except.error ⟨400, "Missing required fields: venueId, slotId"⟩
  else
    match findVal db.slots slotId with
    | none => Except.error ⟨404, "Slot not found"⟩
    | some s =>
      let status := lowStr (s.status.getD "")
      if status ≠ "" ∧ status ≠ "available" then
        Except.error ⟨409, "Slot is not available"⟩
      else
        Except.ok (bookCommit db now venueId slotId uid s)

/-- `callerIsManagerOrAdmin` as defined in `app/api/slots/unbook/route.ts`
and `app/api/bookings/route.ts`: look the caller up in the `users`
collection and test whether its `role` field is `manager` or `admin`. -/
def callerIsManagerOrAdmin (db : DB) (uid : String) : Bool :=
  match findVal db.users uid with
  | none => false
  | some u => u.role == some "manager" || u.role == some "admin"

/-- The commit body of the reserve handler of `app/api/bookings/route.ts`
(lines 222-245): create the confirmed physical booking document and mark
the slot `RESERVED` with the fresh booking id. -/
def reserveCommit (db : DB) (now : Nat)
    (slotId venueId customerName customerPhone : String)
    (notes : Option String) (s : SlotDoc) : DB × String :=
  let bid := genId db.nextId
  let booking : BookingDoc :=
    { venueId := some venueId, userId := none, slotId := some slotId,
      timeSlot := some (strOrUndef s.date ++ " " ++ strOrUndef s.startTime
        ++ " - " ++ jsOr s.endTime ""),
      status := some "confirmed", bookingType := some "physical",
      customerName := some customerName, customerPhone := some customerPhone,
      notes := jsStr notes, amount := none, bookingExpiresAt := none,
      date := s.date, startTime := s.startTime, createdAt := some now }
  let db1 := addBooking db bid booking
  let db2 := updateSlot db1 slotId (fun sl =>
    { sl with status := some "RESERVED", bookingId := some bid, updatedAt := some now })
  (db2, bid)

/-- The reserve POST handler of `app/api/bookings/route.ts` after
authentication: validate inputs, require a manager-or-admin role, then
run the transaction that rejects only a stored status equal (uppercased)
to `BOOKED`, creates a confirmed physical booking, and marks the slot
`RESERVED`. -/
def reservePOST (db : DB) (now : Nat)
    (slotId venueId customerName customerPhone : String)
    (notes : Option String) (uid : String) : Except Http (DB × String) :=
  if slotId = "" ∨ venueId = "" ∨ customerName = "" ∨ customerPhone = "" then
    Except.error ⟨400, "Missing required fields"⟩
  else if callerIsManagerOrAdmin db uid = false then
    Except.error ⟨403, "Forbidden"⟩
  else
    match findVal db.slots slotId with
    | none => Except.error ⟨404, "Slot not found"⟩
    | some s =>
      let status := upStr (s.status.getD "")
      if status = "BOOKED" then
        Except.error ⟨409, "Slot already booked"⟩
      else
        Except.ok (reserveCommit db now slotId venueId customerName customerPhone notes s)

/-- `tx.delete(bookingRef)`: remove the booking document with the given
id. -/
def deleteBooking (db : DB) (bookingId : String) : DB :=
  { db with bookings := db.bookings.filter (fun p => p.1 ≠ bookingId) }

/-- The POST handler of `app/api/slots/unbook/route.ts` (unreserve)
after authentication: validate inputs, require a manager-or-admin role,
then run the transaction that rejects an absent booking with 404 and a
non-physical booking with 400, and otherwise deletes the booking
document and puts the slot back to `AVAILABLE` clearing its `bookingId`
(`tx.update` on an absent slot document faults the transaction, which
the handler surfaces as a 500). -/
def unbookPOST (db : DB) (now : Nat) (slotId bookingId venueId uid : String) :
    Except Http DB :=
  if slotId = "" ∨ bookingId = "" ∨ venueId = "" then
    Except.error ⟨400, "Missing fields"⟩
  else if callerIsManagerOrAdmin db uid = false then
    Except.error ⟨403, "Forbidden"⟩
  else
    match findVal db.bookings bookingId with
    | none => Except.error ⟨404, "Booking not found"⟩
    | some b =>
      if b.bookingType ≠ some "physical" then
        Except.error ⟨400, "Only physical bookings can be removed by manager"⟩
      else
        match findVal db.slots slotId with
        | none => Except.error ⟨500, "Internal server error"⟩
        | some _ =>
          Except.ok (updateSlot (deleteBooking db bookingId) slotId (fun sl =>
            { sl with status := some "AVAILABLE", bookingId := none, updatedAt := some now }))

/-- `hour.toString().padStart(2, "0")`. -/
def padTwo (h : Nat) : String :=
  if h < 10 then "0" ++ toString h else toString h

/-- The generated slot start time string of the schedule-generation
handler: the hour padded to two digits followed by `:00`. -/
def hourString (h : Nat) : String :=
  padTwo h ++ ":00"

/-- Drop the first `:` of a character list (`String.replace(":", "")`
replaces only the first occurrence). -/
def stripFirstColon : List Char → List Char
  | [] => []
  | c :: cs => if c = ':' then cs else c :: stripFirstColon cs

/-- `getSlotId` of `app/api/bookings/route.ts`: ground id, date and
start time with its first colon removed, joined with underscores. -/
def getSlotId (groundId date startTime : String) : String :=
  groundId ++ "_" ++ date ++ "_" ++ String.mk (stripFirstColon startTime.data)

/-- The decimal value of an ASCII digit character, `none` for a
non-digit. -/
def charDigit (c : Char) : Option Nat :=
  if 48 ≤ c.toNat ∧ c.toNat ≤ 57 then some (c.toNat - 48) else none

/-- Accumulate the leading decimal digits of a character list, stopping
at the first non-digit (the tail `parseInt` ignores). -/
def parseDigits : List Char → Nat → Nat
  | [], acc => acc
  | c :: cs, acc =>
    match charDigit c with
    | some d => parseDigits cs (acc * 10 + d)
    | none => acc

/-- JavaScript `parseInt(s, 10)` restricted to non-negative results:
`none` stands for `NaN` (no leading digit). -/
def parseIntJS (s : String) : Option Nat :=
  match s.data with
  | [] => none
  | c :: _ => if (charDigit c).isSome then some (parseDigits s.data 0) else none

/-- The text of a clock string before its first `:`
(`t.split(":")[0]`). -/
def headColon (t : String) : String :=
  String.mk (t.data.takeWhile (fun c => c ≠ ':'))

/-- `parseInt(t.split(":")[0], 10)`: `none` models `NaN`. -/
def parseHour (t : String) : Option Nat :=
  parseIntJS (headColon t)

/-- Fuel-driven unfolding of the hour loop of the schedule-generation
handler; the increment is at least 1, so `e - h` steps of fuel suffice. -/
def hourStepsAux : Nat → Nat → Nat → Nat → List Nat
  | 0, _, _, _ => []
  | fuel + 1, h, e, step => if h < e then h :: hourStepsAux fuel (h + max 1 step) e step else []

/-- The hour loop of the schedule-generation handler:
`for (let hour = startHour; hour < endHour; hour += Math.max(1, step))`. -/
def hourSteps (h e step : Nat) : List Nat :=
  hourStepsAux (e - h) h e step

/-- `batch.set(slotRef, {groundId, date, startTime, status:"AVAILABLE"},
{merge:true})`: update those four fields of an existing slot document
keeping the rest, or create the document with just those fields. -/
def mergeSlot (db : DB) (slotId groundId date startTime : String) : DB :=
  match findVal db.slots slotId with
  | some _ =>
    updateSlot db slotId (fun s =>
      { s with groundId := some groundId, date := some date,
               startTime := some startTime, status := some "AVAILABLE" })
  | none =>
    { db with slots := db.slots ++
        [(slotId, { status := some "AVAILABLE", heldBy := none, holdExpiresAt := none,
                    bookingId := none, groundId := some groundId, date := some date,
                    startTime := some startTime, endTime := none, updatedAt := none })] }

/-- The inner hour loop of the schedule-generation handler applied over
one date. -/
def applyHours (db : DB) (venueId dateString : String) : List Nat → DB
  | [] => db
  | h :: hs =>
    applyHours
      (mergeSlot db (getSlotId venueId dateString (hourString h)) venueId dateString (hourString h))
      venueId dateString hs

/-- The outer date loop of the schedule-generation handler. -/
def applyDates (db : DB) (venueId : String) (hours : List Nat) : List String → DB
  | [] => db
  | d :: ds => applyDates (applyHours db venueId d hours) venueId hours ds

/-- The hour list of a schedule-generation request: hour loop bounds
parsed from the clock strings (a `NaN` bound runs zero iterations). -/
def genHours (startTime endTime : String) (slotDuration : Option Nat) : List Nat :=
  match parseHour startTime, parseHour endTime with
  | some a, some b => hourSteps a b ((slotDuration.getD 60) / 60)
  | _, _ => []

/-- The database produced by a committed schedule-generation batch:
every slot of the generated range upserted with status `AVAILABLE`, and
the venue's `startTime`/`endTime` overwritten. -/
def generateResult (db : DB) (dayStr : Nat → String) (venueId startTime endTime : String)
    (slotDuration : Option Nat) (days : Option Nat) : DB :=
  let dates := (List.range (days.getD 7)).map dayStr
  let db1 := applyDates db venueId (genHours startTime endTime slotDuration) dates
  { db1 with venues := db1.venues.map (fun p =>
      if p.1 = venueId then
        (p.1, { p.2 with startTime := some startTime, endTime := some endTime })
      else p) }

/-- The schedule-generation POST handler of `app/api/bookings/route.ts`
after authentication.  `dayStr i` abstracts the ISO date string of
`now + i` days computed from `new Date()`; the batch upserts every slot
of the generated range with status `AVAILABLE` and overwrites the
venue's `startTime`/`endTime` (a batch whose `update` targets an absent
venue document fails whole, surfacing as a 500). -/
def generatePOST (db : DB) (dayStr : Nat → String) (venueId startTime endTime : String)
    (slotDuration : Option Nat) (days : Option Nat) (uid : String) : Except Http DB :=
  if venueId = "" ∨ startTime = "" ∨ endTime = "" then
    Except.error ⟨400, "Missing fields"⟩
  else if callerIsManagerOrAdmin db uid = false then
    Except.error ⟨403, "Forbidden"⟩
  else
    match findVal db.venues venueId with
    | none => Except.error ⟨500, "Internal server error"⟩
    | some _ =>
      Except.ok (generateResult db dayStr venueId startTime endTime slotDuration days)

/-- The effective slot status computed by `renderSlot` in
`components/WeeklySlotsGrid.old.tsx` (lines 466-479): an absent slot
document reads as `AVAILABLE`, and a `HELD` slot whose `holdExpiresAt`
lies strictly in the past is downgraded to `AVAILABLE`. -/
def renderSlotStatus (slot : Option SlotDoc) (now : Nat) : Option String :=
  match slot with
  | none => some "AVAILABLE"
  | some s =>
    if s.status = some "HELD" then
      match s.holdExpiresAt with
      | some e => if e < now then some "AVAILABLE" else s.status
      | none => s.status
    else s.status

/-- The pass condition of the hold route's availability check: stored
status (uppercased) empty or `AVAILABLE`, or `HELD` without an active
(unexpired) hold. -/
def effAvailableHold (s : SlotDoc) (now : Nat) : Bool :=
  (upStr (s.status.getD "") == "" || upStr (s.status.getD "") == "AVAILABLE") ||
    (upStr (s.status.getD "") == "HELD" && !holdActiveAt s now)

/-- The slot document is effectively held: stored status `HELD`
(uppercased, as the mutation routes normalize it) with an unexpired
hold. -/
def isHeldAt (s : SlotDoc) (now : Nat) : Bool :=
  upStr (s.status.getD "") == "HELD" && holdActiveAt s now

/-- The slot document is booked (stored status `BOOKED` up to case). -/
def isBookedDoc (s : SlotDoc) : Bool :=
  upStr (s.status.getD "") == "BOOKED"

/-- The slot document is blocked (stored status `BLOCKED` up to case). -/
def isBlockedDoc (s : SlotDoc) : Bool :=
  upStr (s.status.getD "") == "BLOCKED"

/-- The slot document is reserved (stored status `RESERVED` up to
case). -/
def isReservedDoc (s : SlotDoc) : Bool :=
  upStr (s.status.getD "") == "RESERVED"

/-- At most one of the four exceptional effective statuses holds of a
slot document: they all test the single stored `status` field. -/
def atMostOneStatus (s : SlotDoc) (now : Nat) : Prop :=
  ([isHeldAt s now, isBookedDoc s, isBlockedDoc s, isReservedDoc s].count true) ≤ 1

/-- One hold request of a serialized run: the requesting user and the
optional `holdDurationMinutes` of its body. -/
structure HoldReq where
  uid : String
  dur : Option Nat
deriving DecidableEq

/-- Serialized execution of a batch of concurrently issued hold requests
on one slot key: Firestore commits the racing transactions in some
serial order, each seeing the database left by the previous commit; a
failing request leaves the database unchanged. -/
def runHolds (db : DB) (now : Nat) (slotId venueId : String) :
    List HoldReq → DB × List (Except Http String)
  | [] => (db, [])
  | r :: rs =>
    match holdPOST db now slotId venueId r.uid r.dur with
    | Except.ok x =>
      let rest := runHolds x.1 now slotId venueId rs
      (rest.1, Except.ok x.2 :: rest.2)
    | Except.error e =>
      let rest := runHolds db now slotId venueId rs
      (rest.1, Except.error e :: rest.2)

/-- Whether a handler result is a success (2xx) response. -/
def isOkB {α : Type} : Except Http α → Bool
  | Except.ok _ => true
  | Except.error _ => false

/-- The database of a successful mutation result. -/
def okDB : Except Http (DB × String) → Option DB
  | Except.ok p => some p.1
  | Except.error _ => none

/-- The booking id of a successful mutation result. -/
def okBid : Except Http (DB × String) → Option String
  | Except.ok p => some p.2
  | Except.error _ => none

/-- The HTTP status code of an error result. -/
def errCode {α : Type} : Except Http α → Option Nat
  | Except.ok _ => none
  | Except.error e => some e.status

/-- A fresh available slot document used by concrete runs. -/
def slotAvail : SlotDoc :=
  { status := some "AVAILABLE", heldBy := none, holdExpiresAt := none,
    bookingId := none, groundId := some "v1", date := some "2025-01-02",
    startTime := some "09:00", endTime := some "10:00", updatedAt := none }

/-- A slot document held by user `alice` with an unexpired hold. -/
def slotHeldAlice : SlotDoc :=
  { slotAvail with status := some "HELD", heldBy := some "alice",
                   holdExpiresAt := some 2000, bookingId := some "bk9" }

/-- A slot document whose hold by `alice` has already expired. -/
def slotHeldExpired : SlotDoc :=
  { slotAvail with status := some "HELD", heldBy := some "alice",
                   holdExpiresAt := some 500, bookingId := some "bk9" }

/-- A slot document stored as booked (as the book handler writes it). -/
def slotBookedDoc : SlotDoc :=
  { slotAvail with status := some "booked", bookingId := some "bk9" }

/-- The user table of the concrete runs: a manager `mallory` who manages
no venue, an ordinary user `carol`. -/
def usersFix : List (String × UserDoc) :=
  [("mallory", { role := some "manager" }), ("carol", { role := some "user" })]

/-- The venue table of the concrete runs: venue `v1` is managed by
`owner1`, not by `mallory`. -/
def venuesFix : List (String × VenueDoc) :=
  [("v1", { pricePerHour := some 1000, managedBy := some "owner1",
            startTime := some "09:00", endTime := some "21:00" })]

/-- Concrete database with one fresh available slot `s1`. -/
def dbFresh : DB :=
  { slots := [("s1", slotAvail)], bookings := [], users := usersFix,
    venues := venuesFix, nextId := 0 }

/-- Concrete database whose slot `s1` is held by `alice` (hold expires
at 2000). -/
def dbHeld : DB :=
  { dbFresh with slots := [("s1", slotHeldAlice)] }

/-- Concrete database whose slot `s1` carries an expired hold by
`alice`. -/
def dbExpired : DB :=
  { dbFresh with slots := [("s1", slotHeldExpired)] }

/-- An online booking document as the book handler writes it: no
`bookingType` field. -/
def bookingOnlineFix : BookingDoc :=
  { venueId := some "v1", userId := some "carol", slotId := some "s1",
    timeSlot := none, status := some "pending", bookingType := none,
    customerName := none, customerPhone := none, notes := none,
    amount := some 1000, bookingExpiresAt := none, date := none,
    startTime := none, createdAt := some 100 }

/-- A physical booking document as the reserve handler writes it. -/
def bookingPhysicalFix : BookingDoc :=
  { venueId := some "v1", userId := none, slotId := some "s1",
    timeSlot := some "2025-01-02 09:00 - 10:00", status := some "confirmed",
    bookingType := some "physical", customerName := some "John",
    customerPhone := some "123", notes := none, amount := none,
    bookingExpiresAt := none, date := some "2025-01-02",
    startTime := some "09:00", createdAt := some 100 }

/-- Concrete database with an online (non-physical) booking `bk1`
attached to booked slot `s1`. -/
def dbOnlineBooking : DB :=
  { dbFresh with slots := [("s1", slotBookedDoc)],
                 bookings := [("bk1", bookingOnlineFix)] }

/-- Concrete database with a physical booking `bk2` attached to
reserved slot `s1`. -/
def dbPhysicalBooking : DB :=
  { dbFresh with slots := [("s1", { slotAvail with status := some "RESERVED",
                                                   bookingId := some "bk2" })],
                 bookings := [("bk2", bookingPhysicalFix)] }

/-- Concrete database for the schedule-generation run: the slot of
2025-01-02 09:00 is an existing booked exception entry. -/
def dbGen : DB :=
  { dbFresh with slots := [("v1_2025-01-02_0900", slotBookedDoc)] }

/-- The day-string function of the concrete schedule-generation run:
day 0 is 2025-01-01, day 1 is 2025-01-02. -/
def dayStrFix (i : Nat) : String :=
  if i = 0 then "2025-01-01" else "2025-01-02"

theorem findVal_map_update {α : Type} (l : List (String × α)) (k : String) (f : α → α) :
    findVal (l.map (fun p => if p.1 = k then (p.1, f p.2) else p)) k
      = (findVal l k).map f := by
  induction l with
  | nil => rfl
  | cons p t ih =>
    by_cases h : p.1 = k
    · simp [findVal, h]
    · simp [findVal, h, ih]

theorem findVal_map_update_ne {α : Type} (l : List (String × α)) (k q : String) (f : α → α)
    (h : q ≠ k) :
    findVal (l.map (fun p => if p.1 = k then (p.1, f p.2) else p)) q = findVal l q := by
  induction l with
  | nil => rfl
  | cons p t ih =>
    by_cases hq : p.1 = q
    · have hpk : p.1 ≠ k := by rw [hq]; exact h
      simp [findVal, hpk, hq, h]
    · by_cases hp : p.1 = k
      · have hkq : ¬ k = q := hp ▸ hq
        simp [findVal, hp, hkq, ih]
      · simp [findVal, hp, hq, ih]

theorem findVal_append_ne {α : Type} (l : List (String × α)) (k q : String) (v : α)
    (h : q ≠ k) : findVal (l ++ [(k, v)]) q = findVal l q := by
  have hkq : ¬ k = q := fun hk => h hk.symm
  induction l with
  | nil => simp [findVal, hkq]
  | cons p t ih =>
    by_cases hq : p.1 = q
    · simp [findVal, hq]
    · simp [findVal, hq, ih]

theorem findVal_append_self {α : Type} (l : List (String × α)) (k : String) (v : α)
    (h : findVal l k = none) : findVal (l ++ [(k, v)]) k = some v := by
  induction l with
  | nil => simp [findVal]
  | cons p t ih =>
    by_cases hp : p.1 = k
    · simp [findVal, hp] at h
    · simp [findVal, hp] at h ⊢
      exact ih h

theorem findVal_updateSlot_self (db : DB) (k : String) (f : SlotDoc → SlotDoc) :
    findVal (updateSlot db k f).slots k = (findVal db.slots k).map f :=
  findVal_map_update db.slots k f

theorem findVal_updateSlot_ne (db : DB) (k q : String) (f : SlotDoc → SlotDoc)
    (h : q ≠ k) : findVal (updateSlot db k f).slots q = findVal db.slots q :=
  findVal_map_update_ne db.slots k q f h

theorem holdPOST_conflict (db : DB) (now : Nat) (slotId venueId uid : String)
    (dur : Option Nat) (s : SlotDoc)
    (hne : ¬ (slotId = "" ∨ venueId = ""))
    (hfv : findVal db.slots slotId = some s)
    (hst : s.status = some "HELD") (hact : holdActiveAt s now = true) :
    holdPOST db now slotId venueId uid dur = Except.error ⟨409, "Slot currently held"⟩ := by
  unfold holdPOST
  rw [if_neg hne, hfv]
  simp only [hst, Option.getD_some]
  rw [if_pos (by decide : upStr "HELD" ≠ "" ∧ upStr "HELD" ≠ "AVAILABLE")]
  rw [if_neg (by decide : ¬ upStr "HELD" ≠ "HELD")]
  rw [if_pos hact]

theorem holdPOST_ok (db : DB) (now : Nat) (slotId venueId uid : String)
    (dur : Option Nat) (s : SlotDoc)
    (hne : ¬ (slotId = "" ∨ venueId = ""))
    (hfv : findVal db.slots slotId = some s)
    (hav : effAvailableHold s now = true) :
    holdPOST db now slotId venueId uid dur
      = Except.ok (holdCommit db now slotId venueId uid (dur.getD 5)) := by
  simp only [effAvailableHold, Bool.or_eq_true, Bool.and_eq_true, beq_iff_eq,
    Bool.not_eq_true'] at hav
  unfold holdPOST
  rw [if_neg hne, hfv]
  dsimp only
  rcases hav with (h1 | h2) | ⟨h3, h4⟩
  · rw [if_neg (by rw [h1]; decide)]
  · rw [if_neg (by rw [h2]; decide)]
  · rw [if_pos (by rw [h3]; decide)]
    rw [if_neg (by rw [h3]; decide)]
    rw [h4]
    rfl

theorem holdPOST_ok_inv (db : DB) (now : Nat) (slotId venueId uid : String)
    (dur : Option Nat) (x : DB × String)
    (h : holdPOST db now slotId venueId uid dur = Except.ok x) :
    ¬ (slotId = "" ∨ venueId = "") ∧
      ∃ s, findVal db.slots slotId = some s ∧ effAvailableHold s now = true ∧
        x = holdCommit db now slotId venueId uid (dur.getD 5) := by
  by_cases hne : slotId = "" ∨ venueId = ""
  · unfold holdPOST at h
    rw [if_pos hne] at h
    cases h
  · refine ⟨hne, ?_⟩
    cases hfv : findVal db.slots slotId with
    | none =>
      unfold holdPOST at h
      rw [if_neg hne, hfv] at h
      cases h
    | some s =>
      refine ⟨s, rfl, ?_⟩
      unfold holdPOST at h
      rw [if_neg hne, hfv] at h
      dsimp only at h
      by_cases hb : upStr (s.status.getD "") ≠ "" ∧ upStr (s.status.getD "") ≠ "AVAILABLE"
      · rw [if_pos hb] at h
        by_cases hh : upStr (s.status.getD "") ≠ "HELD"
        · rw [if_pos hh] at h
          cases h
        · rw [if_neg hh] at h
          push_neg at hh
          cases hact : holdActiveAt s now with
          | true =>
            rw [hact] at h
            simp at h
          | false =>
            rw [hact] at h
            simp at h
            refine ⟨?_, h.symm⟩
            simp [effAvailableHold, hh, hact]
      · rw [if_neg hb] at h
        simp at h
        push_neg at hb
        constructor
        · simp only [effAvailableHold, Bool.or_eq_true, Bool.and_eq_true, beq_iff_eq,
            Bool.not_eq_true']
          by_cases h1 : upStr (s.status.getD "") = ""
          · exact Or.inl (Or.inl h1)
          · exact Or.inl (Or.inr (hb h1))
        · exact h.symm

theorem runHolds_conflict (now : Nat) (slotId venueId : String)
    (hne : ¬ (slotId = "" ∨ venueId = ""))
    (rs : List HoldReq) :
    ∀ db s, findVal db.slots slotId = some s → s.status = some "HELD" →
      holdActiveAt s now = true →
      runHolds db now slotId venueId rs
        = (db, rs.map (fun _ => Except.error ⟨409, "Slot currently held"⟩)) := by
  induction rs with
  | nil => intro db s _ _ _; rfl
  | cons r t ih =>
    intro db s hfv hst hact
    have hconf := holdPOST_conflict db now slotId venueId r.uid r.dur s hne hfv hst hact
    simp only [runHolds, hconf]
    rw [ih db s hfv hst hact]
    rfl

theorem holdCommit_slot (db : DB) (now : Nat) (slotId venueId uid : String) (m : Nat)
    (s : SlotDoc) (hfv : findVal db.slots slotId = some s) :
    findVal ((holdCommit db now slotId venueId uid m).1).slots slotId
      = some { s with status := some "HELD", heldBy := some uid,
                      holdExpiresAt := some (now + m * 60 * 1000),
                      bookingId := some (genId db.nextId), updatedAt := some now } := by
  unfold holdCommit addBooking
  dsimp only
  rw [findVal_updateSlot_self, hfv]
  rfl

theorem atMostOne_always (s : SlotDoc) (now : Nat) : atMostOneStatus s now := by
  unfold atMostOneStatus isHeldAt isBookedDoc isBlockedDoc isReservedDoc
  by_cases h1 : upStr (s.status.getD "") = "HELD"
  · have h2 : ¬ upStr (s.status.getD "") = "BOOKED" := by rw [h1]; decide
    have h3 : ¬ upStr (s.status.getD "") = "BLOCKED" := by rw [h1]; decide
    have h4 : ¬ upStr (s.status.getD "") = "RESERVED" := by rw [h1]; decide
    simp [h1, h2, h3, h4]
    cases holdActiveAt s now <;> simp
  · by_cases h2 : upStr (s.status.getD "") = "BOOKED"
    · have h3 : ¬ upStr (s.status.getD "") = "BLOCKED" := by rw [h2]; decide
      have h4 : ¬ upStr (s.status.getD "") = "RESERVED" := by rw [h2]; decide
      simp [h1, h2, h3, h4]
    · by_cases h3 : upStr (s.status.getD "") = "BLOCKED"
      · have h4 : ¬ upStr (s.status.getD "") = "RESERVED" := by rw [h3]; decide
        simp [h1, h2, h3, h4]
      · by_cases h4 : upStr (s.status.getD "") = "RESERVED" <;> simp [h1, h2, h3, h4]

theorem countP_isOkB_errs (rs : List HoldReq) (e : Http) :
    (rs.map (fun _ => (Except.error e : Except Http String))).countP isOkB = 0 := by
  induction rs with
  | nil => rfl
  | cons r t ih => simp [List.countP_cons, isOkB, ih]

/-- C1: for a fixed slot key, a batch of concurrently issued hold
attempts (serialized by the transactional store, each with a positive
hold duration) on an effectively available slot has exactly one commit —
the first transaction to run — and every other attempt observes a 409
Conflict; the final slot is held, and on any slot document at most one
of the effective statuses held/booked/blocked/reserved holds, since the
four predicates read the one stored status field. -/
theorem hold_race_exactly_one_commits
    (db : DB) (now : Nat) (slotId venueId : String) (s : SlotDoc)
    (r : HoldReq) (rs : List HoldReq)
    (hne : ¬ (slotId = "" ∨ venueId = ""))
    (hfv : findVal db.slots slotId = some s)
    (hav : effAvailableHold s now = true)
    (hdur : ∀ q ∈ r :: rs, 1 ≤ q.dur.getD 5) :
    ∃ dbf,
      runHolds db now slotId venueId (r :: rs)
        = (dbf, Except.ok (genId db.nextId)
            :: rs.map (fun _ => Except.error ⟨409, "Slot currently held"⟩)) ∧
      (runHolds db now slotId venueId (r :: rs)).2.countP isOkB = 1 ∧
      (∃ sf, findVal dbf.slots slotId = some sf ∧ isHeldAt sf now = true) ∧
      ∀ s2 n2, atMostOneStatus s2 n2 := by
  have hok := holdPOST_ok db now slotId venueId r.uid r.dur s hne hfv hav
  have hd : 1 ≤ r.dur.getD 5 := hdur r (List.mem_cons_self r rs)
  have hslot1 := holdCommit_slot db now slotId venueId r.uid (r.dur.getD 5) s hfv
  have hact1 : holdActiveAt
      { s with status := some "HELD", heldBy := some r.uid,
               holdExpiresAt := some (now + (r.dur.getD 5) * 60 * 1000),
               bookingId := some (genId db.nextId), updatedAt := some now } now = true := by
    show decide (now < now + (r.dur.getD 5) * 60 * 1000) = true
    rw [decide_eq_true_eq]
    exact Nat.lt_add_of_pos_right (Nat.mul_pos (Nat.mul_pos hd (by norm_num)) (by norm_num))
  have hrest := runHolds_conflict now slotId venueId hne rs
    (holdCommit db now slotId venueId r.uid (r.dur.getD 5)).1 _ hslot1 rfl hact1
  have hmain : runHolds db now slotId venueId (r :: rs)
      = ((holdCommit db now slotId venueId r.uid (r.dur.getD 5)).1,
          Except.ok (genId db.nextId)
            :: rs.map (fun _ => Except.error ⟨409, "Slot currently held"⟩)) := by
    simp only [runHolds, hok]
    rw [hrest]
    rfl
  refine ⟨(holdCommit db now slotId venueId r.uid (r.dur.getD 5)).1, hmain, ?_, ⟨_, hslot1, ?_⟩,
    fun s2 n2 => atMostOne_always s2 n2⟩
  · rw [hmain]
    simp [List.countP_cons, isOkB, countP_isOkB_errs]
  · unfold isHeldAt
    rw [hact1]
    show (upStr ((some "HELD").getD "") == "HELD" && true) = true
    decide

/-- Witness for C1: three concurrent hold requests on the fresh
available slot `s1` — the first succeeds with booking id `bk0`, the
other two observe 409 Conflicts. -/
theorem hold_race_exactly_one_commits_witness :
    (¬ (("s1" : String) = "" ∨ ("v1" : String) = "") ∧
      findVal dbFresh.slots "s1" = some slotAvail ∧
      effAvailableHold slotAvail 1000 = true ∧
      ∀ q ∈ [(⟨"a", none⟩ : HoldReq), ⟨"b", none⟩, ⟨"c", some 2⟩], 1 ≤ q.dur.getD 5) ∧
    (∃ dbf,
      runHolds dbFresh 1000 "s1" "v1" [⟨"a", none⟩, ⟨"b", none⟩, ⟨"c", some 2⟩]
        = (dbf, Except.ok (genId dbFresh.nextId)
            :: ([(⟨"b", none⟩ : HoldReq), ⟨"c", some 2⟩].map
                  (fun _ => Except.error ⟨409, "Slot currently held"⟩))) ∧
      (runHolds dbFresh 1000 "s1" "v1" [⟨"a", none⟩, ⟨"b", none⟩, ⟨"c", some 2⟩]).2.countP isOkB
        = 1 ∧
      (∃ sf, findVal dbf.slots "s1" = some sf ∧ isHeldAt sf 1000 = true) ∧
      ∀ s2 n2, atMostOneStatus s2 n2) :=
  ⟨⟨by decide, rfl, by decide, by decide⟩,
    hold_race_exactly_one_commits dbFresh 1000 "s1" "v1" slotAvail
      ⟨"a", none⟩ [⟨"b", none⟩, ⟨"c", some 2⟩] (by decide) rfl (by decide) (by decide)⟩

theorem findVal_cons_self {α : Type} (k : String) (v : α) (l : List (String × α)) :
    findVal ((k, v) :: l) k = some v := by
  simp [findVal]

theorem holdCommit_booking (db : DB) (now : Nat) (slotId venueId uid : String) (m : Nat) :
    findVal ((holdCommit db now slotId venueId uid m).1).bookings (genId db.nextId)
      = some { venueId := some venueId, userId := some uid, slotId := some slotId,
               timeSlot := none, status := some "PENDING_PAYMENT", bookingType := none,
               customerName := none, customerPhone := none, notes := none, amount := none,
               bookingExpiresAt := some (now + m * 60 * 1000), date := none, startTime := none,
               createdAt := some now } := by
  unfold holdCommit addBooking updateSlot
  dsimp only
  exact findVal_cons_self _ _ _

/-- C2: the hold route returns 404 Not Found when the slot document is
absent from the schedule; on an effectively available slot it marks the
slot HELD with heldBy = the authenticated caller and
holdExpiresAt = now + duration minutes, and creates the associated
pending booking (status PENDING_PAYMENT) in the same transaction; on a
slot that is not effectively available it fails with a 409 Conflict. -/
theorem hold_spec (db : DB) (now : Nat) (slotId venueId uid : String) (dur : Option Nat)
    (hne : ¬ (slotId = "" ∨ venueId = "")) :
    (findVal db.slots slotId = none →
      holdPOST db now slotId venueId uid dur = Except.error ⟨404, "Slot not found"⟩) ∧
    (∀ s, findVal db.slots slotId = some s →
      (effAvailableHold s now = true →
        ∃ db1, holdPOST db now slotId venueId uid dur = Except.ok (db1, genId db.nextId) ∧
          findVal db1.slots slotId
            = some { s with status := some "HELD", heldBy := some uid,
                            holdExpiresAt := some (now + (dur.getD 5) * 60 * 1000),
                            bookingId := some (genId db.nextId), updatedAt := some now } ∧
          findVal db1.bookings (genId db.nextId)
            = some { venueId := some venueId, userId := some uid, slotId := some slotId,
                     timeSlot := none, status := some "PENDING_PAYMENT", bookingType := none,
                     customerName := none, customerPhone := none, notes := none, amount := none,
                     bookingExpiresAt := some (now + (dur.getD 5) * 60 * 1000),
                     date := none, startTime := none, createdAt := some now }) ∧
      (effAvailableHold s now = false →
        ∃ m, holdPOST db now slotId venueId uid dur = Except.error ⟨409, m⟩)) := by
  constructor
  · intro hnone
    unfold holdPOST
    rw [if_neg hne, hnone]
  · intro s hfv
    constructor
    · intro hav
      refine ⟨(holdCommit db now slotId venueId uid (dur.getD 5)).1, ?_, ?_, ?_⟩
      · rw [holdPOST_ok db now slotId venueId uid dur s hne hfv hav]
        rfl
      · exact holdCommit_slot db now slotId venueId uid (dur.getD 5) s hfv
      · exact holdCommit_booking db now slotId venueId uid (dur.getD 5)
    · intro hfalse
      have hnot : ¬ effAvailableHold s now = true := by rw [hfalse]; simp
      simp only [effAvailableHold, Bool.or_eq_true, Bool.and_eq_true, beq_iff_eq,
        Bool.not_eq_true', not_or] at hnot
      push_neg at hnot
      obtain ⟨⟨h1, h2⟩, h3⟩ := hnot
      unfold holdPOST
      rw [if_neg hne, hfv]
      dsimp only
      rw [if_pos ⟨h1, h2⟩]
      by_cases hh : upStr (s.status.getD "") = "HELD"
      · rw [if_neg (by rw [hh]; decide)]
        have hact : holdActiveAt s now = true := by
          cases hcase : holdActiveAt s now
          · exact absurd hcase (h3 hh)
          · rfl
        rw [if_pos hact]
        exact ⟨_, rfl⟩
      · rw [if_pos hh]
        exact ⟨_, rfl⟩



/-- Witness for C2: holding the fresh available slot `s1` as `alice`
produces the held slot and the pending booking `bk0`. -/
theorem hold_spec_witness :
    (¬ (("s1" : String) = "" ∨ ("v1" : String) = "")) ∧
    (effAvailableHold slotAvail 1000 = true) ∧
    (∃ db1, holdPOST dbFresh 1000 "s1" "v1" "alice" none
        = Except.ok (db1, genId dbFresh.nextId) ∧
      findVal db1.slots "s1"
        = some { slotAvail with status := some "HELD", heldBy := some "alice",
                                holdExpiresAt := some (1000 + ((none : Option Nat).getD 5) * 60 * 1000),
                                bookingId := some (genId dbFresh.nextId), updatedAt := some 1000 } ∧
      findVal db1.bookings (genId dbFresh.nextId)
        = some { venueId := some "v1", userId := some "alice", slotId := some "s1",
                 timeSlot := none, status := some "PENDING_PAYMENT", bookingType := none,
                 customerName := none, customerPhone := none, notes := none, amount := none,
                 bookingExpiresAt := some (1000 + ((none : Option Nat).getD 5) * 60 * 1000),
                 date := none, startTime := none, createdAt := some 1000 }) :=
  ⟨by decide, by decide,
    ((hold_spec dbFresh 1000 "s1" "v1" "alice" none (by decide)).2 slotAvail rfl).1 (by decide)⟩

/-- C3: a slot whose hold has expired (holdExpiresAt strictly in the
past) is read back as AVAILABLE by the grid renderer before any sweeper
runs, and a subsequent hold by a different user on the same key succeeds,
overwriting the expired hold with the new holder and expiry. -/
theorem expired_hold_read_available_and_reholdable
    (db : DB) (now : Nat) (slotId venueId uid2 : String) (dur : Option Nat)
    (s : SlotDoc) (e : Nat)
    (hne : ¬ (slotId = "" ∨ venueId = ""))
    (hfv : findVal db.slots slotId = some s)
    (hst : s.status = some "HELD")
    (hexp : s.holdExpiresAt = some e) (hpast : e < now)
    (hdiff : s.heldBy ≠ some uid2) :
    renderSlotStatus (some s) now = some "AVAILABLE" ∧
    ∃ db1, holdPOST db now slotId venueId uid2 dur = Except.ok (db1, genId db.nextId) ∧
      findVal db1.slots slotId
        = some { s with status := some "HELD", heldBy := some uid2,
                        holdExpiresAt := some (now + (dur.getD 5) * 60 * 1000),
                        bookingId := some (genId db.nextId), updatedAt := some now } := by
  have hact : holdActiveAt s now = false := by
    unfold holdActiveAt
    rw [hexp]
    simp
    omega
  constructor
  · unfold renderSlotStatus
    dsimp only
    rw [hst, if_pos rfl, hexp]
    dsimp only
    rw [if_pos hpast]
  · have hav : effAvailableHold s now = true := by
      simp [effAvailableHold, hst, hact]
      decide
    refine ⟨(holdCommit db now slotId venueId uid2 (dur.getD 5)).1, ?_, ?_⟩
    · rw [holdPOST_ok db now slotId venueId uid2 dur s hne hfv hav]
      rfl
    · exact holdCommit_slot db now slotId venueId uid2 (dur.getD 5) s hfv

/-- Witness for C3: slot `s1` held by `alice` with expiry 500 in the
past of instant 1000 renders AVAILABLE and is successfully re-held by
`bob`. -/
theorem expired_hold_witness :
    (¬ (("s1" : String) = "" ∨ ("v1" : String) = "")) ∧
    slotHeldExpired.status = some "HELD" ∧
    slotHeldExpired.holdExpiresAt = some 500 ∧ 500 < 1000 ∧
    slotHeldExpired.heldBy ≠ some "bob" ∧
    (renderSlotStatus (some slotHeldExpired) 1000 = some "AVAILABLE" ∧
      ∃ db1, holdPOST dbExpired 1000 "s1" "v1" "bob" none
          = Except.ok (db1, genId dbExpired.nextId) ∧
        findVal db1.slots "s1"
          = some { slotHeldExpired with status := some "HELD", heldBy := some "bob",
                                        holdExpiresAt := some (1000 + ((none : Option Nat).getD 5) * 60 * 1000),
                                        bookingId := some (genId dbExpired.nextId),
                                        updatedAt := some 1000 }) :=
  ⟨by decide, rfl, rfl, by decide, by decide,
    expired_hold_read_available_and_reholdable dbExpired 1000 "s1" "v1" "bob" none
      slotHeldExpired 500 (by decide) rfl rfl rfl (by decide) (by decide)⟩

/-- C4 counterexample: slot `s1` is held by `alice` with an unexpired
hold; a book by `alice` herself fails with 409 Conflict, where the claim
requires a book by the holder to succeed. -/
theorem book_held_by_same_user_conflicts :
    findVal dbHeld.slots "s1" = some slotHeldAlice ∧
    slotHeldAlice.status = some "HELD" ∧
    slotHeldAlice.heldBy = some "alice" ∧
    holdActiveAt slotHeldAlice 1000 = true ∧
    bookPOST dbHeld 1000 "v1" "s1" "alice" = Except.error ⟨409, "Slot is not available"⟩ := by
  refine ⟨rfl, rfl, rfl, by decide, ?_⟩
  rfl

theorem bookCommit_slot (db : DB) (now : Nat) (venueId slotId uid : String)
    (s : SlotDoc) (hfv : findVal db.slots slotId = some s) :
    findVal ((bookCommit db now venueId slotId uid s).1).slots slotId
      = some { s with status := some "booked", bookingId := some (genId db.nextId),
                      updatedAt := some now } := by
  unfold bookCommit addBooking
  dsimp only
  rw [findVal_updateSlot_self, hfv]
  rfl

/-- C4 amended: the book handler succeeds exactly when the stored
status lowercased is empty or `available`; any other stored status —
including a slot held by the same caller and an expired hold — fails
with 409 Conflict, and an absent slot gives 404. -/
theorem book_requires_stored_available
    (db : DB) (now : Nat) (venueId slotId uid : String)
    (hne : ¬ (venueId = "" ∨ slotId = "")) :
    (findVal db.slots slotId = none →
      bookPOST db now venueId slotId uid = Except.error ⟨404, "Slot not found"⟩) ∧
    (∀ s, findVal db.slots slotId = some s →
      (lowStr (s.status.getD "") ≠ "" ∧ lowStr (s.status.getD "") ≠ "available" →
        bookPOST db now venueId slotId uid = Except.error ⟨409, "Slot is not available"⟩) ∧
      ((lowStr (s.status.getD "") = "" ∨ lowStr (s.status.getD "") = "available") →
        ∃ db1, bookPOST db now venueId slotId uid = Except.ok (db1, genId db.nextId) ∧
          findVal db1.slots slotId
            = some { s with status := some "booked", bookingId := some (genId db.nextId),
                            updatedAt := some now })) := by
  constructor
  · intro hnone
    unfold bookPOST
    rw [if_neg hne, hnone]
  · intro s hfv
    constructor
    · intro hbad
      unfold bookPOST
      rw [if_neg hne, hfv]
      dsimp only
      rw [if_pos hbad]
    · intro hgood
      have hcond : ¬ (lowStr (s.status.getD "") ≠ "" ∧ lowStr (s.status.getD "") ≠ "available") := by
        rcases hgood with h | h
        · exact fun hc => hc.1 h
        · exact fun hc => hc.2 h
      refine ⟨(bookCommit db now venueId slotId uid s).1, ?_, ?_⟩
      · unfold bookPOST
        rw [if_neg hne, hfv]
        dsimp only
        rw [if_neg hcond]
        rfl
      · exact bookCommit_slot db now venueId slotId uid s hfv

/-- Witness for the amended C4: booking the fresh available slot
succeeds and marks it `booked`. -/
theorem book_requires_stored_available_witness :
    (¬ (("v1" : String) = "" ∨ ("s1" : String) = "")) ∧
    (∃ db1, bookPOST dbFresh 1000 "v1" "s1" "carol" = Except.ok (db1, genId dbFresh.nextId) ∧
      findVal db1.slots "s1"
        = some { slotAvail with status := some "booked", bookingId := some (genId dbFresh.nextId),
                                updatedAt := some 1000 }) :=
  ⟨by decide,
    ((book_requires_stored_available dbFresh 1000 "v1" "s1" "carol" (by decide)).2
      slotAvail rfl).2 (by decide)⟩



/-- C5 counterexample: after a successful hold by `alice` (booking id
`bk0`), the book call by the same `alice` on the same key fails with 409
instead of confirming the booking, so the hold-book round trip of the
claim does not happen. -/
theorem hold_then_book_round_trip_fails :
    okBid (holdPOST dbFresh 1000 "s1" "v1" "alice" none) = some "bk0" ∧
    (okDB (holdPOST dbFresh 1000 "s1" "v1" "alice" none)).map
        (fun d => bookPOST d 1000 "v1" "s1" "alice")
      = some (Except.error ⟨409, "Slot is not available"⟩) := ⟨rfl, rfl⟩

/-- C5 amended: after any successful hold, a book by the same user on
the same key fails with 409 Conflict (the book handler requires stored
status `available` and never consumes a hold), and the slot keeps the
bookingId created by the hold. -/
theorem hold_then_book_same_user_conflicts
    (db : DB) (now now2 : Nat) (slotId venueId uid : String) (dur : Option Nat)
    (db1 : DB) (bid : String)
    (h : holdPOST db now slotId venueId uid dur = Except.ok (db1, bid)) :
    bookPOST db1 now2 venueId slotId uid = Except.error ⟨409, "Slot is not available"⟩ ∧
    (findVal db1.slots slotId).map SlotDoc.bookingId = some (some bid) := by
  obtain ⟨hne, s, hfv, hav, hx⟩ := holdPOST_ok_inv db now slotId venueId uid dur (db1, bid) h
  have hdb1 : db1 = (holdCommit db now slotId venueId uid (dur.getD 5)).1 := congrArg Prod.fst hx
  have hbid : bid = genId db.nextId := congrArg Prod.snd hx
  have hslot := holdCommit_slot db now slotId venueId uid (dur.getD 5) s hfv
  rw [← hdb1] at hslot
  have hne2 : ¬ (venueId = "" ∨ slotId = "") := fun hc => hne (hc.elim Or.inr Or.inl)
  constructor
  · unfold bookPOST
    rw [if_neg hne2, hslot]
    dsimp only
    have hlow : lowStr ((some "HELD").getD "") = "held" := rfl
    rw [if_pos ⟨by rw [hlow]; decide, by rw [hlow]; decide⟩]
  · rw [hslot, hbid]
    rfl

/-- Witness for the amended C5: the concrete hold then book run. -/
theorem hold_then_book_same_user_conflicts_witness :
    holdPOST dbFresh 1000 "s1" "v1" "alice" none
      = Except.ok ((holdCommit dbFresh 1000 "s1" "v1" "alice" 5).1, "bk0") ∧
    (bookPOST (holdCommit dbFresh 1000 "s1" "v1" "alice" 5).1 2000 "v1" "s1" "alice"
        = Except.error ⟨409, "Slot is not available"⟩ ∧
      (findVal ((holdCommit dbFresh 1000 "s1" "v1" "alice" 5).1).slots "s1").map
          SlotDoc.bookingId = some (some "bk0")) :=
  ⟨rfl, hold_then_book_same_user_conflicts dbFresh 1000 2000 "s1" "v1" "alice" none
    (holdCommit dbFresh 1000 "s1" "v1" "alice" 5).1 "bk0" rfl⟩

theorem reserveCommit_slot (db : DB) (now : Nat) (slotId venueId cn cp : String)
    (notes : Option String) (s : SlotDoc) (hfv : findVal db.slots slotId = some s) :
    findVal ((reserveCommit db now slotId venueId cn cp notes s).1).slots slotId
      = some { s with status := some "RESERVED", bookingId := some (genId db.nextId),
                      updatedAt := some now } := by
  unfold reserveCommit addBooking
  dsimp only
  rw [findVal_updateSlot_self, hfv]
  rfl

theorem reserveCommit_booking (db : DB) (now : Nat) (slotId venueId cn cp : String)
    (notes : Option String) (s : SlotDoc) :
    findVal ((reserveCommit db now slotId venueId cn cp notes s).1).bookings (genId db.nextId)
      = some { venueId := some venueId, userId := none, slotId := some slotId,
               timeSlot := some (strOrUndef s.date ++ " " ++ strOrUndef s.startTime
                 ++ " - " ++ jsOr s.endTime ""),
               status := some "confirmed", bookingType := some "physical",
               customerName := some cn, customerPhone := some cp,
               notes := jsStr notes, amount := none, bookingExpiresAt := none,
               date := s.date, startTime := s.startTime, createdAt := some now } := by
  unfold reserveCommit addBooking updateSlot
  dsimp only
  exact findVal_cons_self _ _ _

/-- C6 counterexample: slot `s1` is effectively held (unexpired hold by
`alice`), yet the reserve call by manager `mallory` succeeds and
overwrites the slot to `RESERVED`, where the claim requires a 409
Conflict. -/
theorem reserve_succeeds_on_held_slot :
    findVal dbHeld.slots "s1" = some slotHeldAlice ∧
    isHeldAt slotHeldAlice 1000 = true ∧
    isOkB (reservePOST dbHeld 1000 "s1" "v1" "John" "123" none "mallory") = true ∧
    ((okDB (reservePOST dbHeld 1000 "s1" "v1" "John" "123" none "mallory")).bind
        (fun d => findVal d.slots "s1")).map SlotDoc.status = some (some "RESERVED") :=
  ⟨rfl, by decide, rfl, rfl⟩

/-- C6 amended: the reserve handler fails with 409 only when the stored
status uppercased is `BOOKED`; on any other existing slot (available,
blocked, held or reserved) it succeeds, inserting a confirmed physical
booking and marking the slot `RESERVED`; an absent slot gives 404. -/
theorem reserve_rejects_only_booked
    (db : DB) (now : Nat) (slotId venueId cn cp : String) (notes : Option String) (uid : String)
    (hne : ¬ (slotId = "" ∨ venueId = "" ∨ cn = "" ∨ cp = ""))
    (hrole : callerIsManagerOrAdmin db uid = true) :
    (findVal db.slots slotId = none →
      reservePOST db now slotId venueId cn cp notes uid = Except.error ⟨404, "Slot not found"⟩) ∧
    (∀ s, findVal db.slots slotId = some s →
      (upStr (s.status.getD "") = "BOOKED" →
        reservePOST db now slotId venueId cn cp notes uid
          = Except.error ⟨409, "Slot already booked"⟩) ∧
      (upStr (s.status.getD "") ≠ "BOOKED" →
        ∃ db1, reservePOST db now slotId venueId cn cp notes uid
            = Except.ok (db1, genId db.nextId) ∧
          findVal db1.slots slotId
            = some { s with status := some "RESERVED", bookingId := some (genId db.nextId),
                            updatedAt := some now } ∧
          findVal db1.bookings (genId db.nextId)
            = some { venueId := some venueId, userId := none, slotId := some slotId,
                     timeSlot := some (strOrUndef s.date ++ " " ++ strOrUndef s.startTime
                       ++ " - " ++ jsOr s.endTime ""),
                     status := some "confirmed", bookingType := some "physical",
                     customerName := some cn, customerPhone := some cp,
                     notes := jsStr notes, amount := none, bookingExpiresAt := none,
                     date := s.date, startTime := s.startTime, createdAt := some now })) := by
  have hroleNe : ¬ (callerIsManagerOrAdmin db uid = false) := by simp [hrole]
  constructor
  · intro hnone
    unfold reservePOST
    rw [if_neg hne, if_neg hroleNe, hnone]
  · intro s hfv
    constructor
    · intro hbooked
      unfold reservePOST
      rw [if_neg hne, if_neg hroleNe, hfv]
      dsimp only
      rw [if_pos hbooked]
    · intro hnb
      refine ⟨(reserveCommit db now slotId venueId cn cp notes s).1, ?_, ?_, ?_⟩
      · unfold reservePOST
        rw [if_neg hne, if_neg hroleNe, hfv]
        dsimp only
        rw [if_neg hnb]
        rfl
      · exact reserveCommit_slot db now slotId venueId cn cp notes s hfv
      · exact reserveCommit_booking db now slotId venueId cn cp notes s



/-- Witness for the amended C6: reserving the fresh available slot as
manager `mallory` succeeds with the physical confirmed booking. -/
theorem reserve_rejects_only_booked_witness :
    (¬ (("s1" : String) = "" ∨ ("v1" : String) = "" ∨ ("John" : String) = ""
        ∨ ("123" : String) = "")) ∧
    callerIsManagerOrAdmin dbFresh "mallory" = true ∧
    (∃ db1, reservePOST dbFresh 1000 "s1" "v1" "John" "123" none "mallory"
        = Except.ok (db1, genId dbFresh.nextId) ∧
      findVal db1.slots "s1"
        = some { slotAvail with status := some "RESERVED",
                                bookingId := some (genId dbFresh.nextId),
                                updatedAt := some 1000 } ∧
      findVal db1.bookings (genId dbFresh.nextId)
        = some { venueId := some "v1", userId := none, slotId := some "s1",
                 timeSlot := some (strOrUndef slotAvail.date ++ " "
                   ++ strOrUndef slotAvail.startTime ++ " - " ++ jsOr slotAvail.endTime ""),
                 status := some "confirmed", bookingType := some "physical",
                 customerName := some "John", customerPhone := some "123",
                 notes := jsStr none, amount := none, bookingExpiresAt := none,
                 date := slotAvail.date, startTime := slotAvail.startTime,
                 createdAt := some 1000 }) :=
  ⟨by decide, by decide,
    ((reserve_rejects_only_booked dbFresh 1000 "s1" "v1" "John" "123" none "mallory"
        (by decide) (by decide)).2 slotAvail rfl).2 (by decide)⟩

theorem findVal_filter_self {α : Type} (l : List (String × α)) (k : String) :
    findVal (l.filter (fun p => p.1 ≠ k)) k = none := by
  induction l with
  | nil => rfl
  | cons p t ih =>
    by_cases hp : p.1 = k
    · simpa [List.filter_cons, hp] using ih
    · simpa [List.filter_cons, hp, findVal] using ih

/-- C7 counterexample: unreserving the online (non-physical) booking
`bk1` returns HTTP 400, not the 403 Forbidden the claim states. -/
theorem unreserve_online_returns_400_not_403 :
    findVal dbOnlineBooking.bookings "bk1" = some bookingOnlineFix ∧
    bookingOnlineFix.bookingType ≠ some "physical" ∧
    unbookPOST dbOnlineBooking 1000 "s1" "bk1" "v1" "mallory"
      = Except.error ⟨400, "Only physical bookings can be removed by manager"⟩ ∧
    errCode (unbookPOST dbOnlineBooking 1000 "s1" "bk1" "v1" "mallory") ≠ some 403 :=
  ⟨rfl, by decide, rfl, by decide⟩

/-- C7 amended: the unbook handler returns 404 when no booking document
with the given id exists, 400 (not 403) when the booking is not
physical-channel, and on a physical booking succeeds, deleting the
booking document and reverting the slot to `AVAILABLE` with its
bookingId cleared. -/
theorem unreserve_spec
    (db : DB) (now : Nat) (slotId bookingId venueId uid : String) (sl : SlotDoc)
    (hne : ¬ (slotId = "" ∨ bookingId = "" ∨ venueId = ""))
    (hrole : callerIsManagerOrAdmin db uid = true)
    (hslot : findVal db.slots slotId = some sl) :
    (findVal db.bookings bookingId = none →
      unbookPOST db now slotId bookingId venueId uid
        = Except.error ⟨404, "Booking not found"⟩) ∧
    (∀ b, findVal db.bookings bookingId = some b →
      (b.bookingType ≠ some "physical" →
        unbookPOST db now slotId bookingId venueId uid
          = Except.error ⟨400, "Only physical bookings can be removed by manager"⟩) ∧
      (b.bookingType = some "physical" →
        ∃ db1, unbookPOST db now slotId bookingId venueId uid = Except.ok db1 ∧
          findVal db1.bookings bookingId = none ∧
          findVal db1.slots slotId
            = some { sl with status := some "AVAILABLE", bookingId := none,
                             updatedAt := some now })) := by
  have hroleNe : ¬ (callerIsManagerOrAdmin db uid = false) := by simp [hrole]
  constructor
  · intro hnone
    unfold unbookPOST
    rw [if_neg hne, if_neg hroleNe, hnone]
  · intro b hb
    constructor
    · intro hnp
      unfold unbookPOST
      rw [if_neg hne, if_neg hroleNe, hb]
      dsimp only
      rw [if_pos hnp]
    · intro hp
      refine ⟨updateSlot (deleteBooking db bookingId) slotId (fun sl =>
        { sl with status := some "AVAILABLE", bookingId := none, updatedAt := some now }),
        ?_, ?_, ?_⟩
      · unfold unbookPOST
        rw [if_neg hne, if_neg hroleNe, hb]
        dsimp only
        rw [if_neg (by simp [hp])]
        rw [hslot]
      · show findVal (deleteBooking db bookingId).bookings bookingId = none
        unfold deleteBooking
        exact findVal_filter_self db.bookings bookingId
      · rw [findVal_updateSlot_self]
        have hslot2 : findVal (deleteBooking db bookingId).slots slotId = some sl := hslot
        rw [hslot2]
        rfl

/-- Witness for the amended C7: unreserving the physical booking `bk2`
succeeds, deletes it and reverts slot `s1` to `AVAILABLE`. -/
theorem unreserve_spec_witness :
    (¬ (("s1" : String) = "" ∨ ("bk2" : String) = "" ∨ ("v1" : String) = "")) ∧
    callerIsManagerOrAdmin dbPhysicalBooking "mallory" = true ∧
    bookingPhysicalFix.bookingType = some "physical" ∧
    (∃ db1, unbookPOST dbPhysicalBooking 1000 "s1" "bk2" "v1" "mallory" = Except.ok db1 ∧
      findVal db1.bookings "bk2" = none ∧
      findVal db1.slots "s1"
        = some { ({ slotAvail with status := some "RESERVED", bookingId := some "bk2" } : SlotDoc)
                   with status := some "AVAILABLE", bookingId := none, updatedAt := some 1000 }) :=
  ⟨by decide, by decide, rfl,
    ((unreserve_spec dbPhysicalBooking 1000 "s1" "bk2" "v1" "mallory"
        { slotAvail with status := some "RESERVED", bookingId := some "bk2" }
        (by decide) (by decide) rfl).2 bookingPhysicalFix rfl).2 rfl⟩

theorem mergeSlot_status_self (db : DB) (sid g dt st : String) :
    (findVal (mergeSlot db sid g dt st).slots sid).map SlotDoc.status
      = some (some "AVAILABLE") := by
  unfold mergeSlot
  cases hfv : findVal db.slots sid with
  | some s =>
    dsimp only
    rw [findVal_updateSlot_self, hfv]
    rfl
  | none =>
    dsimp only
    rw [findVal_append_self db.slots sid _ hfv]
    rfl

theorem mergeSlot_ne (db : DB) (sid g dt st q : String) (h : q ≠ sid) :
    findVal (mergeSlot db sid g dt st).slots q = findVal db.slots q := by
  unfold mergeSlot
  cases hfv : findVal db.slots sid with
  | some s =>
    dsimp only
    exact findVal_updateSlot_ne db sid q _ h
  | none =>
    dsimp only
    exact findVal_append_ne db.slots sid q _ h

theorem mergeSlot_preserves_avail (db : DB) (sid g dt st q : String)
    (h : (findVal db.slots q).map SlotDoc.status = some (some "AVAILABLE")) :
    (findVal (mergeSlot db sid g dt st).slots q).map SlotDoc.status
      = some (some "AVAILABLE") := by
  by_cases hq : q = sid
  · subst hq
    exact mergeSlot_status_self db q g dt st
  · rw [mergeSlot_ne db sid g dt st q hq]
    exact h

theorem mergeSlot_venues (db : DB) (sid g dt st : String) :
    (mergeSlot db sid g dt st).venues = db.venues := by
  unfold mergeSlot
  cases hfv : findVal db.slots sid <;> rfl

theorem mergeSlot_bookings (db : DB) (sid g dt st : String) :
    (mergeSlot db sid g dt st).bookings = db.bookings := by
  unfold mergeSlot
  cases hfv : findVal db.slots sid <;> rfl

theorem applyHours_preserves (venueId dt : String) (hs : List Nat) :
    ∀ db q, (findVal db.slots q).map SlotDoc.status = some (some "AVAILABLE") →
      (findVal (applyHours db venueId dt hs).slots q).map SlotDoc.status
        = some (some "AVAILABLE") := by
  induction hs with
  | nil => intro db q h; exact h
  | cons a t ih =>
    intro db q h
    simp only [applyHours]
    exact ih _ q (mergeSlot_preserves_avail db
      (getSlotId venueId dt (hourString a)) venueId dt (hourString a) q h)

theorem applyHours_sets (venueId dt : String) (hs : List Nat) :
    ∀ db h, h ∈ hs →
      (findVal (applyHours db venueId dt hs).slots
          (getSlotId venueId dt (hourString h))).map SlotDoc.status
        = some (some "AVAILABLE") := by
  induction hs with
  | nil => intro db h hmem; cases hmem
  | cons a t ih =>
    intro db h hmem
    simp only [applyHours]
    rcases List.mem_cons.mp hmem with rfl | hmem2
    · exact applyHours_preserves venueId dt t _ _
        (mergeSlot_status_self db (getSlotId venueId dt (hourString h)) venueId dt (hourString h))
    · exact ih _ h hmem2

theorem applyHours_frame (venueId dt : String) (hs : List Nat) :
    ∀ db q, (∀ h ∈ hs, q ≠ getSlotId venueId dt (hourString h)) →
      findVal (applyHours db venueId dt hs).slots q = findVal db.slots q := by
  induction hs with
  | nil => intro db q _; rfl
  | cons a t ih =>
    intro db q hq
    simp only [applyHours]
    rw [ih _ q (fun h hm => hq h (List.mem_cons_of_mem a hm))]
    exact mergeSlot_ne db (getSlotId venueId dt (hourString a)) venueId dt (hourString a) q
      (hq a (List.mem_cons_self a t))

theorem applyHours_venues (venueId dt : String) (hs : List Nat) :
    ∀ db, (applyHours db venueId dt hs).venues = db.venues := by
  induction hs with
  | nil => intro db; rfl
  | cons a t ih =>
    intro db
    simp only [applyHours]
    rw [ih, mergeSlot_venues]

theorem applyHours_bookings (venueId dt : String) (hs : List Nat) :
    ∀ db, (applyHours db venueId dt hs).bookings = db.bookings := by
  induction hs with
  | nil => intro db; rfl
  | cons a t ih =>
    intro db
    simp only [applyHours]
    rw [ih, mergeSlot_bookings]

theorem applyDates_preserves (venueId : String) (hours : List Nat) (ds : List String) :
    ∀ db q, (findVal db.slots q).map SlotDoc.status = some (some "AVAILABLE") →
      (findVal (applyDates db venueId hours ds).slots q).map SlotDoc.status
        = some (some "AVAILABLE") := by
  induction ds with
  | nil => intro db q h; exact h
  | cons d t ih =>
    intro db q h
    simp only [applyDates]
    exact ih _ q (applyHours_preserves venueId d hours db q h)

theorem applyDates_sets (venueId : String) (hours : List Nat) (ds : List String) :
    ∀ db dt h, dt ∈ ds → h ∈ hours →
      (findVal (applyDates db venueId hours ds).slots
          (getSlotId venueId dt (hourString h))).map SlotDoc.status
        = some (some "AVAILABLE") := by
  induction ds with
  | nil => intro db dt h hmem _; cases hmem
  | cons d t ih =>
    intro db dt h hmem hh
    simp only [applyDates]
    rcases List.mem_cons.mp hmem with rfl | hmem2
    · exact applyDates_preserves venueId hours t _ _ (applyHours_sets venueId dt hours db h hh)
    · exact ih _ dt h hmem2 hh

theorem applyDates_frame (venueId : String) (hours : List Nat) (ds : List String) :
    ∀ db q, (∀ dt ∈ ds, ∀ h ∈ hours, q ≠ getSlotId venueId dt (hourString h)) →
      findVal (applyDates db venueId hours ds).slots q = findVal db.slots q := by
  induction ds with
  | nil => intro db q _; rfl
  | cons d t ih =>
    intro db q hq
    simp only [applyDates]
    rw [ih _ q (fun dt hm => hq dt (List.mem_cons_of_mem d hm))]
    exact applyHours_frame venueId d hours db q (hq d (List.mem_cons_self d t))

theorem applyDates_venues (venueId : String) (hours : List Nat) (ds : List String) :
    ∀ db, (applyDates db venueId hours ds).venues = db.venues := by
  induction ds with
  | nil => intro db; rfl
  | cons d t ih =>
    intro db
    simp only [applyDates]
    rw [ih, applyHours_venues]

theorem applyDates_bookings (venueId : String) (hours : List Nat) (ds : List String) :
    ∀ db, (applyDates db venueId hours ds).bookings = db.bookings := by
  induction ds with
  | nil => intro db; rfl
  | cons d t ih =>
    intro db
    simp only [applyDates]
    rw [ih, applyHours_bookings]



theorem generatePOST_ok_inv (db : DB) (dayStr : Nat → String) (venueId st et : String)
    (sd days : Option Nat) (uid : String) (db1 : DB)
    (h : generatePOST db dayStr venueId st et sd days uid = Except.ok db1) :
    ∃ v0, findVal db.venues venueId = some v0 ∧
      db1 = generateResult db dayStr venueId st et sd days := by
  by_cases h1 : venueId = "" ∨ st = "" ∨ et = ""
  · unfold generatePOST at h
    rw [if_pos h1] at h
    cases h
  · unfold generatePOST at h
    rw [if_neg h1] at h
    by_cases h2 : callerIsManagerOrAdmin db uid = false
    · rw [if_pos h2] at h
      cases h
    · rw [if_neg h2] at h
      cases hv : findVal db.venues venueId with
      | none =>
        rw [hv] at h
        cases h
      | some v0 =>
        rw [hv] at h
        dsimp only at h
        cases h
        exact ⟨v0, rfl, rfl⟩

/-- C8 amended: a committed schedule generation overwrites the venue's
startTime/endTime configuration, and upserts every slot of the generated
range to stored status `AVAILABLE` — existing exception entries in the
range are reset rather than left untouched; slots outside the generated
range and the bookings collection are unchanged. -/
theorem generate_resets_range_to_available
    (db : DB) (dayStr : Nat → String) (venueId st et : String) (sd days : Option Nat)
    (uid : String) (db1 : DB)
    (hok : generatePOST db dayStr venueId st et sd days uid = Except.ok db1) :
    (∀ dt ∈ (List.range (days.getD 7)).map dayStr, ∀ h ∈ genHours st et sd,
      (findVal db1.slots (getSlotId venueId dt (hourString h))).map SlotDoc.status
        = some (some "AVAILABLE")) ∧
    (∀ q, (∀ dt ∈ (List.range (days.getD 7)).map dayStr, ∀ h ∈ genHours st et sd,
        q ≠ getSlotId venueId dt (hourString h)) →
      findVal db1.slots q = findVal db.slots q) ∧
    db1.bookings = db.bookings ∧
    (findVal db1.venues venueId).map (fun v => (v.startTime, v.endTime))
      = some (some st, some et) := by
  obtain ⟨v0, hv0, hdb1⟩ := generatePOST_ok_inv db dayStr venueId st et sd days uid db1 hok
  subst hdb1
  refine ⟨?_, ?_, ?_, ?_⟩
  · intro dt hdt h hh
    show (findVal (applyDates db venueId (genHours st et sd)
        ((List.range (days.getD 7)).map dayStr)).slots
        (getSlotId venueId dt (hourString h))).map SlotDoc.status = some (some "AVAILABLE")
    exact applyDates_sets venueId (genHours st et sd) _ db dt h hdt hh
  · intro q hq
    show findVal (applyDates db venueId (genHours st et sd)
        ((List.range (days.getD 7)).map dayStr)).slots q = findVal db.slots q
    exact applyDates_frame venueId (genHours st et sd) _ db q hq
  · show (applyDates db venueId (genHours st et sd)
        ((List.range (days.getD 7)).map dayStr)).bookings = db.bookings
    exact applyDates_bookings venueId (genHours st et sd) _ db
  · unfold generateResult
    dsimp only
    rw [applyDates_venues]
    rw [findVal_map_update db.venues venueId
      (fun v => { v with startTime := some st, endTime := some et })]
    rw [hv0]
    rfl

/-- C8 counterexample: the slot of 2025-01-02 09:00 is an existing
booked exception entry, and after a schedule generation covering that
date and hour its stored status is `AVAILABLE` — generateSchedule does
not leave existing exception entries unchanged. -/
theorem generate_overwrites_booked_exception :
    (findVal dbGen.slots "v1_2025-01-02_0900").map SlotDoc.status = some (some "booked") ∧
    (match generatePOST dbGen dayStrFix "v1" "09:00" "10:00" none (some 2) "mallory" with
      | Except.ok d => (findVal d.slots "v1_2025-01-02_0900").map SlotDoc.status
      | Except.error _ => none) = some (some "AVAILABLE") :=
  ⟨rfl, by decide⟩

/-- Witness for the amended C8 at the concrete generation run over
2025-01-01 and 2025-01-02 with hours 09:00-10:00. -/
theorem generate_resets_range_witness :
    generatePOST dbGen dayStrFix "v1" "09:00" "10:00" none (some 2) "mallory"
      = Except.ok (generateResult dbGen dayStrFix "v1" "09:00" "10:00" none (some 2)) ∧
    ("2025-01-02" ∈ (List.range ((some 2 : Option Nat).getD 7)).map dayStrFix) ∧
    (9 ∈ genHours "09:00" "10:00" none) ∧
    (findVal (generateResult dbGen dayStrFix "v1" "09:00" "10:00" none (some 2)).slots
        (getSlotId "v1" "2025-01-02" (hourString 9))).map SlotDoc.status
      = some (some "AVAILABLE") :=
  ⟨rfl, by decide, by decide,
    (generate_resets_range_to_available dbGen dayStrFix "v1" "09:00" "10:00" none (some 2)
      "mallory" (generateResult dbGen dayStrFix "v1" "09:00" "10:00" none (some 2)) rfl).1
      "2025-01-02" (by decide) 9 (by decide)⟩

/-- C9 counterexample: `mallory` has global role manager but manages no
venue (venue `v1` is managed by `owner1`), yet the reserve call on `v1`
succeeds — the authorization is not scoped to the venue the caller
manages, contradicting the claim that such callers get Forbidden. -/
theorem manager_of_other_venue_can_reserve :
    findVal dbFresh.users "mallory" = some { role := some "manager" } ∧
    (findVal dbFresh.venues "v1").map VenueDoc.managedBy = some (some "owner1") ∧
    (∀ p ∈ dbFresh.venues, p.2.managedBy ≠ some "mallory") ∧
    isOkB (reservePOST dbFresh 1000 "s1" "v1" "John" "123" none "mallory") = true :=
  ⟨rfl, rfl, by decide, rfl⟩

/-- C9 amended: the manager-only handlers (reserve, unreserve,
generateSchedule; no block/unblock endpoint exists) return 403 Forbidden
without touching the database exactly when the caller's global user role
is neither `manager` nor `admin`; with that role they never return 403,
and the role check is independent of the venues collection, so it is not
scoped to the venue the caller manages. -/
theorem manager_ops_require_global_role_only
    (db : DB) (now : Nat) (slotId bookingId venueId cn cp st et : String)
    (notes : Option String) (sd days : Option Nat) (dayStr : Nat → String) (uid : String)
    (h1 : ¬ (slotId = "" ∨ venueId = "" ∨ cn = "" ∨ cp = ""))
    (h2 : ¬ (slotId = "" ∨ bookingId = "" ∨ venueId = ""))
    (h3 : ¬ (venueId = "" ∨ st = "" ∨ et = "")) :
    (callerIsManagerOrAdmin db uid = false →
      reservePOST db now slotId venueId cn cp notes uid = Except.error ⟨403, "Forbidden"⟩ ∧
      unbookPOST db now slotId bookingId venueId uid = Except.error ⟨403, "Forbidden"⟩ ∧
      generatePOST db dayStr venueId st et sd days uid = Except.error ⟨403, "Forbidden"⟩) ∧
    (callerIsManagerOrAdmin db uid = true →
      errCode (reservePOST db now slotId venueId cn cp notes uid) ≠ some 403 ∧
      errCode (unbookPOST db now slotId bookingId venueId uid) ≠ some 403 ∧
      errCode (generatePOST db dayStr venueId st et sd days uid) ≠ some 403) ∧
    (∀ vs1 vs2 : List (String × VenueDoc),
      callerIsManagerOrAdmin { db with venues := vs1 } uid
        = callerIsManagerOrAdmin { db with venues := vs2 } uid) := by
  refine ⟨?_, ?_, fun vs1 vs2 => rfl⟩
  · intro hfalse
    refine ⟨?_, ?_, ?_⟩
    · unfold reservePOST
      rw [if_neg h1, if_pos hfalse]
    · unfold unbookPOST
      rw [if_neg h2, if_pos hfalse]
    · unfold generatePOST
      rw [if_neg h3, if_pos hfalse]
  · intro htrue
    have hroleNe : ¬ (callerIsManagerOrAdmin db uid = false) := by simp [htrue]
    refine ⟨?_, ?_, ?_⟩
    · unfold reservePOST
      rw [if_neg h1, if_neg hroleNe]
      cases hv : findVal db.slots slotId with
      | none => simp [errCode]
      | some s =>
        dsimp only
        by_cases hb : upStr (s.status.getD "") = "BOOKED"
        · rw [if_pos hb]
          simp [errCode]
        · rw [if_neg hb]
          simp [errCode]
    · unfold unbookPOST
      rw [if_neg h2, if_neg hroleNe]
      cases hv : findVal db.bookings bookingId with
      | none => simp [errCode]
      | some b =>
        dsimp only
        by_cases hb : b.bookingType ≠ some "physical"
        · rw [if_pos hb]
          simp [errCode]
        · rw [if_neg hb]
          cases hs : findVal db.slots slotId with
          | none => simp [errCode]
          | some sl => simp [errCode]
    · unfold generatePOST
      rw [if_neg h3, if_neg hroleNe]
      cases hv : findVal db.venues venueId with
      | none => simp [errCode]
      | some v => simp [errCode]

/-- Witness for the amended C9: the plain user `carol` gets 403 from
all three manager-only handlers. -/
theorem manager_ops_require_global_role_only_witness :
    (¬ (("s1" : String) = "" ∨ ("v1" : String) = "" ∨ ("John" : String) = ""
        ∨ ("123" : String) = "")) ∧
    (¬ (("s1" : String) = "" ∨ ("bk1" : String) = "" ∨ ("v1" : String) = "")) ∧
    (¬ (("v1" : String) = "" ∨ ("09:00" : String) = "" ∨ ("10:00" : String) = "")) ∧
    callerIsManagerOrAdmin dbFresh "carol" = false ∧
    (reservePOST dbFresh 1000 "s1" "v1" "John" "123" none "carol"
        = Except.error ⟨403, "Forbidden"⟩ ∧
      unbookPOST dbFresh 1000 "s1" "bk1" "v1" "carol" = Except.error ⟨403, "Forbidden"⟩ ∧
      generatePOST dbFresh dayStrFix "v1" "09:00" "10:00" none (some 2) "carol"
        = Except.error ⟨403, "Forbidden"⟩) :=
  ⟨by decide, by decide, by decide, by decide,
    (manager_ops_require_global_role_only dbFresh 1000 "s1" "bk1" "v1" "John" "123"
      "09:00" "10:00" none none (some 2) dayStrFix "carol"
      (by decide) (by decide) (by decide)).1 (by decide)⟩

/-- C10: a hold request that omits holdDurationMinutes uses the default
of 5 minutes: the inserted hold's holdExpiresAt and the pending
booking's bookingExpiresAt both equal now + 5*60*1000 ms. -/
theorem hold_defaults_to_five_minutes
    (db : DB) (now : Nat) (slotId venueId uid : String) (s : SlotDoc)
    (hne : ¬ (slotId = "" ∨ venueId = ""))
    (hfv : findVal db.slots slotId = some s)
    (hav : effAvailableHold s now = true) :
    ∃ db1, holdPOST db now slotId venueId uid none = Except.ok (db1, genId db.nextId) ∧
      ((findVal db1.slots slotId).bind SlotDoc.holdExpiresAt) = some (now + 5 * 60 * 1000) ∧
      ((findVal db1.bookings (genId db.nextId)).bind BookingDoc.bookingExpiresAt)
        = some (now + 5 * 60 * 1000) := by
  refine ⟨(holdCommit db now slotId venueId uid 5).1, ?_, ?_, ?_⟩
  · rw [holdPOST_ok db now slotId venueId uid none s hne hfv hav]
    rfl
  · rw [holdCommit_slot db now slotId venueId uid 5 s hfv]
    rfl
  · rw [holdCommit_booking db now slotId venueId uid 5]
    rfl

/-- Witness for C10: holding `s1` at instant 1000 with no duration
yields expiry 301000. -/
theorem hold_defaults_to_five_minutes_witness :
    (¬ (("s1" : String) = "" ∨ ("v1" : String) = "")) ∧
    effAvailableHold slotAvail 1000 = true ∧
    (∃ db1, holdPOST dbFresh 1000 "s1" "v1" "alice" none
        = Except.ok (db1, genId dbFresh.nextId) ∧
      ((findVal db1.slots "s1").bind SlotDoc.holdExpiresAt) = some (1000 + 5 * 60 * 1000) ∧
      ((findVal db1.bookings (genId dbFresh.nextId)).bind BookingDoc.bookingExpiresAt)
        = some (1000 + 5 * 60 * 1000)) :=
  ⟨by decide, by decide,
    hold_defaults_to_five_minutes dbFresh 1000 "s1" "v1" "alice" slotAvail
      (by decide) rfl (by decide)⟩

end Tournament
